import Mathlib

/-!
Verification of the change-detection core of the Yad2 car-listing scraper.

The development shallowly embeds the relevant Python source:
  scraper.py   - `CarListing`, `CarListing.to_dict`, `load_cached_listings`,
                 `save_cached_listings`, `find_new_listings`
  s3_storage.py - the load/save error behaviour of `S3StorageManager`
  lambda_handler.py - `LambdaCarScraper.process_filters`
  config.py    - the single cache path `LISTINGS_CACHE_FILE`
Wall-clock time is passed explicitly as a `now : String` parameter (the
source calls `datetime.now().isoformat()`); Python `set`s of listing ids
are modelled as `Finset String`; exceptions are modelled with
`Except String`.
-/

/-- `CarListing` dataclass of scraper.py (lines 29-47).  Fields `image_url`
through `first_seen` are `Optional[str] = None` in the source. -/
structure CarListing where
  id : String
  title : String
  price : String
  year : String
  km : String
  manufacturer : String
  model : String
  url : String
  image_url : Option String := none
  location : Option String := none
  hand : Option String := none
  engine_size : Option String := none
  gear : Option String := none
  color : Option String := none
  description : Option String := none
  first_seen : Option String := none
deriving DecidableEq, Repr

/-- Python truthiness of `s or dflt` for `s : Optional[str]`: both `None`
and the empty string fall back to the default. -/
def pyOr (s : Option String) (dflt : String) : String :=
  match s with
  | none => dflt
  | some v => if v = "" then dflt else v

/-- The dictionary produced by `CarListing.to_dict` (scraper.py lines 49-68):
same fields, except that `first_seen` is defaulted to the current time
(`self.first_seen or datetime.now().isoformat()`). -/
structure ListingDict where
  id : String
  title : String
  price : String
  year : String
  km : String
  manufacturer : String
  model : String
  url : String
  image_url : Option String
  location : Option String
  hand : Option String
  engine_size : Option String
  gear : Option String
  color : Option String
  description : Option String
  first_seen : String
deriving DecidableEq, Repr

/-- `CarListing.to_dict` (scraper.py lines 49-68), with `datetime.now()`
passed in as `now`. -/
def CarListing.to_dict (now : String) (l : CarListing) : ListingDict :=
  { id := l.id
    title := l.title
    price := l.price
    year := l.year
    km := l.km
    manufacturer := l.manufacturer
    model := l.model
    url := l.url
    image_url := l.image_url
    location := l.location
    hand := l.hand
    engine_size := l.engine_size
    gear := l.gear
    color := l.color
    description := l.description
    first_seen := pyOr l.first_seen now }

/-- The `cache_data` JSON object built by `save_cached_listings`
(scraper.py lines 388-392): the id set (serialised as `list(listing_ids)`,
modelled as the set itself), the save timestamp, and the serialised
current listings. -/
structure CacheData where
  listing_ids : Finset String
  last_updated : String
  listings : List ListingDict
deriving DecidableEq

/-- `cache_data` of `save_cached_listings` (scraper.py lines 388-392). -/
def cache_data (now : String) (listing_ids : Finset String)
    (all_listings : List CarListing) : CacheData :=
  { listing_ids := listing_ids
    last_updated := now
    listings := all_listings.map (CarListing.to_dict now) }

/-- The durable state behind the single cache record: missing (no file or
no S3 key), corrupt (content that is not JSON), a JSON record whose
`listing_ids` value is not iterable (null, a number), a JSON record whose
`listing_ids` value is iterable but wrongly typed (a string, whose
iteration yields its one-character strings; an object, whose iteration
yields its string keys; a list of other scalars behaves the same way and
is likewise modelled by its elements), or a well-formed record. -/
inductive StoredLedger where
  | missing
  | corrupt (raw : String)
  | badSchemaNonIterable (raw : String)
  | badSchemaIterable (elems : List String)
  | record (data : CacheData)
deriving DecidableEq

/-- The body of `load_cached_listings` (scraper.py lines 354-373) before
its outer exception handler: a missing record gives the default `{}` and
hence `set(data.get(..., []))` is empty; corrupt content raises a
JSONDecodeError; a non-iterable `listing_ids` value raises a TypeError in
`set(...)`; an iterable but wrongly typed `listing_ids` value raises
nothing - `set(...)` succeeds and yields the set of elements the value
iterates over (for the string value abc, the three one-character
strings); a well-formed record yields its id set.  (On the S3 path
`load_json` already converts a JSONDecodeError into the default value;
both paths end in the empty set for the corrupt case.) -/
def load_body : StoredLedger → Except String (Finset String)
  | StoredLedger.missing => Except.ok ∅
  | StoredLedger.corrupt raw => Except.error ("JSONDecodeError: " ++ raw)
  | StoredLedger.badSchemaNonIterable raw => Except.error ("TypeError: " ++ raw)
  | StoredLedger.badSchemaIterable elems => Except.ok elems.toFinset
  | StoredLedger.record d => Except.ok d.listing_ids

/-- `load_cached_listings` (scraper.py lines 347-377): the outer
`except Exception` at line 374 maps every raised exception to the empty
set returned at line 377. -/
def load_cached_listings (s : StoredLedger) : Finset String :=
  match load_body s with
  | Except.ok ids => ids
  | Except.error _ => ∅

/-- `find_new_listings` (scraper.py lines 426-448), with the load of the
prior id set abstracted into the `cached_ids` argument and the saved
`cache_data` returned instead of written.  Mirrors the source:
`current_ids` is the set of ids of `current_listings`, `new_ids` is the
set difference, `new_listings` keeps the listings whose id is in
`new_ids`, and the saved record carries `cached_ids | current_ids`
together with the serialised `current_listings`. -/
def find_new_listings (now : String) (cached_ids : Finset String)
    (current_listings : List CarListing) : List CarListing × CacheData :=
  let current_ids : Finset String :=
    (current_listings.map (fun l => l.id)).toFinset
  let new_ids : Finset String := current_ids \ cached_ids
  let new_listings :=
    current_listings.filter (fun l => decide (l.id ∈ new_ids))
  let all_ids := cached_ids ∪ current_ids
  (new_listings, cache_data now all_ids current_listings)

/-- `LISTINGS_CACHE_FILE` (config.py line 16) and the S3 object name used
by `load_cached_listings` and `save_cached_listings` (scraper.py lines
359 and 398): a single constant, not a function of the filter name. -/
def listings_cache_key : String := "listings_cache.json"

/-- One diff-and-persist round as the scraper runs it for a filter: the
filter name is accepted only to show that it never influences which
record is read or written - neither `load_cached_listings` nor
`save_cached_listings` takes a filter argument in the source. -/
def run_find (filterName : String) (now : String)
    (store : String → StoredLedger) (current : List CarListing) :
    List CarListing × (String → StoredLedger) :=
  let r := find_new_listings now (load_cached_listings (store listings_cache_key)) current
  (r.1, fun k => if k = listings_cache_key then StoredLedger.record r.2 else store k)

/-- Helper building a listing with the given id and empty required
fields (optional fields stay unset, like the source parser omitting
them). -/
def mkListing (i : String) : CarListing :=
  { id := i, title := "", price := "", year := "", km := ""
    manufacturer := "", model := "", url := "" }

def now0 : String := "2026-01-01T00:00:00"

def now1 : String := "2026-01-01T00:15:00"

def exampleCached : Finset String := {"111", "222"}

def listing111 : CarListing := mkListing ("111")

def listing333 : CarListing := mkListing ("333")

def exampleCurrent : List CarListing :=
  [listing111, mkListing ("222"), listing333]

/-- Outcome of the external fetch collaborator `scrape_listings` as seen
by the per-filter loop: a list of listings, or an exception. -/
inductive FetchResult where
  | ok (listings : List CarListing)
  | raises (msg : String)
deriving DecidableEq

/-- `FetchResult.isRaises` tests the exception case. -/
def FetchResult.isRaises : FetchResult → Bool
  | FetchResult.ok _ => false
  | FetchResult.raises _ => true

/-- Outcome of the Telegram send call inside the per-filter loop. -/
inductive NotifyResult where
  | ok
  | raises (msg : String)
deriving DecidableEq

/-- One configured filter together with the behaviour of its external
collaborators during the run under consideration. -/
structure FilterSpec where
  name : String
  fetch : FetchResult
  notify : NotifyResult
deriving DecidableEq

/-- The `filter_result` dictionary built by
`LambdaCarScraper.process_filters` (lambda_handler.py lines 265-303).
Keys absent from the Python dictionary are modelled as the defaults
below (`none`, count 0). -/
structure FilterResult where
  filter_name : String
  new_listings_count : Nat := 0
  status : String
  notification_sent : Option Bool := none
  notification_error : Option String := none
  error : Option String := none
deriving DecidableEq

/-- Externally visible calls made while processing one filter, in order.
`notified` records the exact payload handed to the notification sink. -/
inductive RunEvent where
  | fetched (filterName : String) (listings : List CarListing)
  | notified (filterName : String) (payload : List CarListing)
  | persisted (filterName : String)
deriving DecidableEq

/-- The body of the per-filter loop of `process_filters`
(lambda_handler.py lines 258-303): scrape, count every fetched listing as
`new_listings_count`, notify the sink with the raw fetched list when it
is non-empty and Telegram is configured (a raised send is caught at line
283 and recorded, the filter still counts as success), and catch any
other exception into an error entry.  The loop never calls
`find_new_listings` or `save_cached_listings`, so no `persisted` event
is ever emitted. -/
def process_one_filter (tg : Bool) (f : FilterSpec) :
    FilterResult × List RunEvent :=
  match f.fetch with
  | FetchResult.raises msg =>
      ({ filter_name := f.name, status := "error", error := some msg }, [])
  | FetchResult.ok listings =>
      let base : FilterResult :=
        { filter_name := f.name, new_listings_count := listings.length,
          status := "success" }
      if listings.isEmpty then
        (base, [RunEvent.fetched f.name listings])
      else if tg then
        match f.notify with
        | NotifyResult.ok =>
            ({ base with notification_sent := some true },
             [RunEvent.fetched f.name listings,
              RunEvent.notified f.name listings])
        | NotifyResult.raises m =>
            ({ base with
                notification_sent := some false
                notification_error := some m },
             [RunEvent.fetched f.name listings,
              RunEvent.notified f.name listings])
      else
        ({ base with
            notification_sent := some false
            notification_error := some ("Telegram not configured") },
         [RunEvent.fetched f.name listings])

/-- The `results` accumulator of `process_filters`
(lambda_handler.py lines 250-256). -/
structure ProcessResults where
  total_filters : Nat
  successful_filters : Nat
  failed_filters : Nat
  total_new_listings : Nat
  filter_results : List FilterResult
deriving DecidableEq

/-- One iteration of the `process_filters` loop: append the entry for the
filter and update the counters (lambda_handler.py lines 258-303). -/
def process_step (tg : Bool) (acc : ProcessResults) (f : FilterSpec) :
    ProcessResults :=
  let r := (process_one_filter tg f).1
  { total_filters := acc.total_filters
    successful_filters :=
      acc.successful_filters + (if r.status = "success" then 1 else 0)
    failed_filters :=
      acc.failed_filters + (if r.status = "error" then 1 else 0)
    total_new_listings := acc.total_new_listings + r.new_listings_count
    filter_results := acc.filter_results ++ [r] }

/-- The loop of `process_filters` over all configured filters, starting
from the initial `results` dictionary (lambda_handler.py lines 250-305). -/
def process_filters_core (tg : Bool) (fs : List FilterSpec) : ProcessResults :=
  fs.foldl (process_step tg)
    { total_filters := fs.length, successful_filters := 0,
      failed_filters := 0, total_new_listings := 0, filter_results := [] }

/-- `LambdaCarScraper.process_filters` (lambda_handler.py lines 234-305):
with no filters configured it returns the early status-400 body (`none`
here); otherwise it runs the loop and returns the results. -/
def process_filters (tg : Bool) (fs : List FilterSpec) :
    Option ProcessResults :=
  if fs.isEmpty then none else some (process_filters_core tg fs)

/-- Result of the `S3StorageManager.save_json` call as seen by
`save_cached_listings`: saved, returned False (s3_storage.py line 188),
or raised before returning. -/
inductive S3SaveResult where
  | saved
  | returnedFalse
  | raised (msg : String)
deriving DecidableEq

/-- How a call to `save_cached_listings` ends for its caller: a normal
return (with the flag recording whether the outer handler at scraper.py
line 423 logged a swallowed exception), or an exception escaping to the
caller. -/
inductive SaveOutcome where
  | returnedNormally (outerHandlerLogged : Bool)
  | raisedToCaller (msg : String)
deriving DecidableEq

/-- The inner S3 `try` body of `save_cached_listings` (scraper.py lines
395-405): a save that returns False is logged, and in a Lambda
environment line 405 raises inside this same `try`. -/
def s3_save_body (isLambda : Bool) (s3 : S3SaveResult) : Except String Unit :=
  match s3 with
  | S3SaveResult.saved => Except.ok ()
  | S3SaveResult.returnedFalse =>
      if isLambda then
        Except.error ("S3 cache save failed in Lambda - cannot fall back to ephemeral local storage")
      else Except.ok ()
  | S3SaveResult.raised m => Except.error m

/-- The inner `except Exception as s3_error` handler (scraper.py lines
406-416): in Lambda it re-raises (line 410); locally it falls back to a
local file write. -/
def s3_except_handler (isLambda : Bool) (localWriteOk : Bool) (m : String) :
    Except String Unit :=
  if isLambda then
    Except.error ("Lambda execution cannot continue without S3 cache: " ++ m)
  else if localWriteOk then Except.ok ()
  else Except.error ("local write failed")

/-- `save_cached_listings` control flow (scraper.py lines 379-424).  Every
exception raised inside the outer `try` - including the deliberate Lambda
re-raise of line 410 - is caught by the blanket `except Exception` at
line 423, which only logs and falls through, so each branch ends in
`returnedNormally`. -/
def save_cached_listings_flow (isLambda useS3 : Bool) (s3 : S3SaveResult)
    (localWriteOk : Bool) : SaveOutcome :=
  let body : Except String Unit :=
    if useS3 then
      match s3_save_body isLambda s3 with
      | Except.ok _ => Except.ok ()
      | Except.error m => s3_except_handler isLambda localWriteOk m
    else
      if localWriteOk then Except.ok ()
      else Except.error ("local write failed")
  match body with
  | Except.ok _ => SaveOutcome.returnedNormally false
  | Except.error _ => SaveOutcome.returnedNormally true

-- Concrete data for the witnesses and counterexamples.

def filterA : FilterSpec :=
  { name := "A", fetch := FetchResult.raises ("boom"), notify := NotifyResult.ok }

def listingB1 : CarListing := mkListing ("b1")

def filterB : FilterSpec :=
  { name := "B", fetch := FetchResult.ok [listingB1], notify := NotifyResult.ok }

def wfilters : List FilterSpec := [filterA, filterB]

def filterF1 : FilterSpec :=
  { name := "f1", fetch := FetchResult.ok [listing111], notify := NotifyResult.ok }

def priorCache : CacheData :=
  { listing_ids := {"111"}, last_updated := now0,
    listings := [CarListing.to_dict now0 listing111] }

def priorCacheA : CacheData :=
  { listing_ids := {"A"}, last_updated := now0,
    listings := [CarListing.to_dict now0 (mkListing ("A"))] }

def listingB : CarListing := mkListing ("B")

def listingX : CarListing := mkListing ("X")

def listingN : CarListing := mkListing ("N")

def emptyStore : String → StoredLedger := fun _ => StoredLedger.missing

def dupA : CarListing := mkListing ("333")

def dupB : CarListing := { mkListing ("333") with title := "second copy" }

def dupCurrent : List CarListing := [dupA, dupB]

def dupCached : Finset String := {"111"}

-- Helper lemmas about the diff engine.

/-- For listings drawn from `current_listings`, membership of the id in
`current_ids \ cached` reduces to absence from `cached`: the filter of
`find_new_listings` keeps exactly the listings whose id is not yet known. -/
theorem find_new_listings_fst_filter (now : String) (cached : Finset String)
    (current : List CarListing) :
    (find_new_listings now cached current).1
      = current.filter (fun l => decide (l.id ∉ cached)) := by
  unfold find_new_listings
  refine List.filter_congr ?_
  intro l hl
  rw [decide_eq_decide]
  have hmem : l.id ∈ (current.map (fun l2 => l2.id)).toFinset := by
    rw [List.mem_toFinset, List.mem_map]
    exact ⟨l, hl, rfl⟩
  simp [Finset.mem_sdiff, hmem]

/-- C2: for current snapshots with non-empty ids, `find_new_listings`
returns exactly the snapshots whose id is not in the prior known-id set,
and the persisted known-id set is the union of the prior ids with the
current ids (ids are never removed). -/
theorem find_new_listings_delta_and_union (now : String)
    (cached : Finset String) (current : List CarListing)
    (hids : ∀ l ∈ current, l.id ≠ "") :
    (find_new_listings now cached current).1
      = current.filter (fun l => decide (l.id ∉ cached)) ∧
    (find_new_listings now cached current).2.listing_ids
      = cached ∪ (current.map (fun l => l.id)).toFinset := by
  exact ⟨find_new_listings_fst_filter now cached current, rfl⟩

/-- C2 witness: the concrete end-to-end example of the spec - prior known
ids 111 and 222, fetched ids 111, 222, 333 - gives exactly the snapshot
with id 333 as new and the union as the persisted id set. -/
theorem find_new_listings_delta_and_union_witness :
    (∀ l ∈ exampleCurrent, l.id ≠ "") ∧
    ((find_new_listings now0 exampleCached exampleCurrent).1
        = exampleCurrent.filter (fun l => decide (l.id ∉ exampleCached)) ∧
      (find_new_listings now0 exampleCached exampleCurrent).2.listing_ids
        = exampleCached ∪ (exampleCurrent.map (fun l => l.id)).toFinset) ∧
    (find_new_listings now0 exampleCached exampleCurrent).1 = [listing333] ∧
    (find_new_listings now0 exampleCached exampleCurrent).2.listing_ids
      = {"111", "222", "333"} :=
  ⟨by decide,
   find_new_listings_delta_and_union now0 exampleCached exampleCurrent (by decide),
   by decide, by decide⟩

/-- C3 counterexample: running the diff engine with an empty snapshot list
on a ledger holding one cached listing payload returns no new listings,
but the ledger it persists has an empty `listings` payload - the cached
payload of listing 111 is erased, so the ledger is not left unchanged. -/
theorem empty_fetch_wipes_cached_payloads :
    (find_new_listings now1 (load_cached_listings (StoredLedger.record priorCache)) []).1 = [] ∧
    (find_new_listings now1 (load_cached_listings (StoredLedger.record priorCache)) []).2.listings = [] ∧
    priorCache.listings.length = 1 ∧
    (find_new_listings now1 (load_cached_listings (StoredLedger.record priorCache)) []).2.last_updated = now1 ∧
    priorCache.last_updated = now0 := by
  exact ⟨rfl, rfl, rfl, rfl, rfl⟩

/-- C3 amended: an empty `current_snapshots` yields empty `new_listings`
and leaves the known-id set unchanged, but the persisted ledger is
rewritten - `last_updated` is set to the current time and the cached
listing payloads are replaced by the (empty) current snapshot set. -/
theorem empty_fetch_empty_delta_ids_unchanged (now : String)
    (cached : Finset String) :
    (find_new_listings now cached []).1 = [] ∧
    (find_new_listings now cached []).2.listing_ids = cached ∧
    (find_new_listings now cached []).2.listings = [] ∧
    (find_new_listings now cached []).2.last_updated = now := by
  refine ⟨rfl, ?_, rfl, rfl⟩
  show cached ∪ (List.map (fun l : CarListing => l.id) []).toFinset = cached
  simp

/-- C5 counterexample: with a prior ledger caching the payload of listing
A and a fetch returning only listing B, the persisted cache payload holds
exactly B - the previously cached A, absent from the fetch, is dropped
rather than kept by a merge. -/
theorem cache_merge_drops_absent_prior_entry :
    ((find_new_listings now1 (load_cached_listings (StoredLedger.record priorCacheA)) [listingB]).2.listings.map
        (fun d => d.id)) = ["B"] ∧
    (priorCacheA.listings.map (fun d => d.id)) = ["A"] := by
  exact ⟨by decide, by decide⟩

/-- C5 amended: the updated cached payloads are exactly the serialised
current snapshot set; the prior cache is not merged in, so any previously
cached listing whose id is absent from `current_snapshots` is dropped. -/
theorem cache_replaced_by_current_snapshots (now : String)
    (cached : Finset String) (current : List CarListing) :
    (find_new_listings now cached current).2.listings
      = current.map (CarListing.to_dict now) := rfl

/-- C6 counterexample: starting from an empty store, a run for filter
filterA with listing X reports X as new; the very first fetch of the same
listing under the distinct filter filterB then reports nothing new - the
id recorded under filterA was added to the set consulted for filterB,
because both filters read and write the single record
`listings_cache.json`. -/
theorem id_seen_under_filterA_not_new_under_filterB :
    (run_find ("filterA") now0 emptyStore [listingX]).1 = [listingX] ∧
    (run_find ("filterB") now1 (run_find ("filterA") now0 emptyStore [listingX]).2 [listingX]).1
      = [] := by
  exact ⟨by decide, by decide⟩

/-- C6 amended: the seen-set ledger is global, not partitioned by filter
name - `load_cached_listings` and `save_cached_listings` use the single
constant record `listings_cache.json` - so for any two filter names,
after a run under the first observes a listing, a run under the second
never reports that listing as new. -/
theorem ledger_shared_across_filters (fA fB nowA nowB : String)
    (store : String → StoredLedger) (x : CarListing) :
    (run_find fB nowB (run_find fA nowA store [x]).2 [x]).1 = [] := by
  have hkey : (run_find fA nowA store [x]).2 listings_cache_key
      = StoredLedger.record (find_new_listings nowA
          (load_cached_listings (store listings_cache_key)) [x]).2 := by
    simp [run_find]
  show (find_new_listings nowB
      (load_cached_listings ((run_find fA nowA store [x]).2 listings_cache_key)) [x]).1 = []
  rw [hkey, find_new_listings_fst_filter]
  simp [load_cached_listings, load_body, find_new_listings, cache_data]

/-- C8 counterexample: a snapshot with unset `first_seen` that the engine
reports as new is returned exactly as it came in, with `first_seen` still
unset; only the serialised copy inside the persisted cache payload is
stamped with the current time. -/
theorem returned_new_listing_first_seen_unset :
    (find_new_listings now0 (∅ : Finset String) [listingN]).1 = [listingN] ∧
    listingN.first_seen = none ∧
    ((find_new_listings now0 (∅ : Finset String) [listingN]).1.map
        (fun l => l.first_seen)) = [none] ∧
    ((find_new_listings now0 (∅ : Finset String) [listingN]).2.listings.map
        (fun d => d.first_seen)) = [now0] := by
  exact ⟨by decide, rfl, by decide, by decide⟩

/-- C8 amended: the snapshots returned in `new_listings` are a sublist of
the input, returned unchanged (in particular an unset `first_seen` stays
unset); the `first_seen` default to the current time happens only when
the snapshots are serialised into the persisted cache payload, where a
snapshot that already carries a (non-empty) `first_seen` keeps it. -/
theorem first_seen_stamped_only_in_serialized_cache (now : String)
    (cached : Finset String) (current : List CarListing) :
    ((find_new_listings now cached current).1).Sublist current ∧
    ((find_new_listings now cached current).2.listings.map
        (fun d => d.first_seen))
      = current.map (fun l => pyOr l.first_seen now) := by
  constructor
  · exact List.filter_sublist current
  · show ((current.map (CarListing.to_dict now)).map (fun d => d.first_seen))
        = current.map (fun l => pyOr l.first_seen now)
    rw [List.map_map]
    rfl

/-- C10: when an id is absent from the prior known-id set, every
occurrence of a snapshot with that id in `current_snapshots` appears in
`new_listings` - the output is not deduplicated by id, so a duplicated id
is handed onward once per occurrence. -/
theorem find_new_listings_preserves_duplicate_ids (now : String)
    (cached : Finset String) (current : List CarListing) (x : String)
    (hx : x ∉ cached) :
    ((find_new_listings now cached current).1.countP (fun l => l.id == x))
      = current.countP (fun l => l.id == x) := by
  rw [find_new_listings_fst_filter, List.countP_filter]
  congr 1
  funext a
  by_cases ha : a.id = x
  · simp [ha, hx]
  · simp [ha]

/-- C10 witness: two distinct snapshot objects share the unseen id 333;
both are returned, so the notifier would receive the id twice in one
run. -/
theorem find_new_listings_preserves_duplicate_ids_witness :
    ("333" ∉ dupCached) ∧
    ((find_new_listings now0 dupCached dupCurrent).1.countP
        (fun l => l.id == "333"))
      = dupCurrent.countP (fun l => l.id == "333") ∧
    dupCurrent.countP (fun l => l.id == "333") = 2 ∧
    (find_new_listings now0 dupCached dupCurrent).1 = [dupA, dupB] :=
  ⟨by decide,
   find_new_listings_preserves_duplicate_ids now0 dupCached dupCurrent ("333") (by decide),
   by decide, by decide⟩

/-- C9 counterexample: at the persisted state with the unexpected schema
in which `listing_ids` holds the JSON string abc, `set(...)` raises
nothing and iterates the string, so the load returns the three-element
garbage id set of its characters - not the empty ledger the claim
promises for every unexpected schema. -/
theorem load_iterable_bad_schema_not_empty :
    load_cached_listings (StoredLedger.badSchemaIterable ["a", "b", "c"])
      = ({"a", "b", "c"} : Finset String) ∧
    (load_cached_listings (StoredLedger.badSchemaIterable ["a", "b", "c"])).card = 3 := by
  exact ⟨rfl, by decide⟩

/-- C9 amended: loading the ledger indeed never fails its caller - every
persisted state produces a value, the exceptions of the corrupt and
non-iterable cases being absorbed by the handler at scraper.py line 374 -
and a missing record, corrupt content, and a non-iterable `listing_ids`
value all degrade to the empty id set; but an iterable wrongly typed
`listing_ids` value does not degrade to empty: `set(...)` succeeds and
the load returns the set of elements it iterates over. -/
theorem load_cached_listings_total_behaviour (raw rawNonIter : String)
    (elems : List String) (d : CacheData) :
    load_cached_listings StoredLedger.missing = ∅ ∧
    load_cached_listings (StoredLedger.corrupt raw) = ∅ ∧
    load_cached_listings (StoredLedger.badSchemaNonIterable rawNonIter) = ∅ ∧
    load_cached_listings (StoredLedger.badSchemaIterable elems) = elems.toFinset ∧
    load_cached_listings (StoredLedger.record d) = d.listing_ids :=
  ⟨rfl, rfl, rfl, rfl, rfl⟩

/-- C4: in the Lambda environment a failed durable save does NOT escalate
to the caller - whether `save_json` returns False or raises, the
deliberate re-raise of scraper.py line 410 is swallowed by the blanket
handler at line 423 and `save_cached_listings` returns normally after
logging. -/
theorem save_lambda_s3_failure_returns_normally :
    save_cached_listings_flow true true S3SaveResult.returnedFalse true
      = SaveOutcome.returnedNormally true ∧
    save_cached_listings_flow true true (S3SaveResult.raised ("AccessDenied")) true
      = SaveOutcome.returnedNormally true :=
  ⟨rfl, rfl⟩

/-- C1: the per-filter loop of `process_filters` hands the notification
sink the raw fetched list and never persists - for a fetch returning the
already-known listing 111, the emitted calls are exactly fetch followed
by notify with that raw list (no persist call exists in the loop), while
the diff engine run on the same input would have produced an empty
delta. -/
theorem lambda_notify_gets_raw_fetch_and_no_persist :
    (process_one_filter true filterF1).2
      = [RunEvent.fetched ("f1") [listing111],
         RunEvent.notified ("f1") [listing111]] ∧
    (find_new_listings now0 exampleCached [listing111]).1 = [] := by
  exact ⟨by decide, by decide⟩

/-- The per-filter entry always carries the name of its filter. -/
theorem process_one_filter_name (tg : Bool) (f : FilterSpec) :
    (process_one_filter tg f).1.filter_name = f.name := by
  rcases f with ⟨n, fetch, nr⟩
  cases fetch with
  | raises msg => rfl
  | ok listings =>
      cases nr <;> by_cases he : listings.isEmpty <;> cases tg <;>
        simp [process_one_filter, he]

/-- The per-filter entry status is error exactly when the fetch raised
(a failed notification is caught inside the loop and does not change the
status). -/
theorem process_one_filter_status (tg : Bool) (f : FilterSpec) :
    (process_one_filter tg f).1.status
      = (if f.fetch.isRaises then "error" else "success") := by
  rcases f with ⟨n, fetch, nr⟩
  cases fetch with
  | raises msg => rfl
  | ok listings =>
      cases nr <;> by_cases he : listings.isEmpty <;> cases tg <;>
        simp [process_one_filter, FetchResult.isRaises, he]

/-- The entry built on the exception path of the per-filter loop. -/
theorem process_one_filter_raises (tg : Bool) (f : FilterSpec) (msg : String)
    (h : f.fetch = FetchResult.raises msg) :
    (process_one_filter tg f).1
      = { filter_name := f.name, status := "error", error := some msg } := by
  simp [process_one_filter, h]

/-- One loop iteration adds one to the failed-filter counter exactly when
the fetch of that filter raised. -/
theorem process_step_failed (tg : Bool) (acc : ProcessResults)
    (f : FilterSpec) :
    (process_step tg acc f).failed_filters
      = acc.failed_filters + (if f.fetch.isRaises then 1 else 0) := by
  have hs := process_one_filter_status tg f
  have hne : ("success" : String) ≠ "error" := by decide
  simp only [process_step]
  rw [hs]
  by_cases hr : f.fetch.isRaises <;> simp [hr, hne]

/-- The loop appends one result entry per filter, in order. -/
theorem foldl_process_step_filter_results (tg : Bool) (fs : List FilterSpec)
    (init : ProcessResults) :
    (fs.foldl (process_step tg) init).filter_results
      = init.filter_results ++ fs.map (fun f => (process_one_filter tg f).1) := by
  induction fs generalizing init with
  | nil => simp
  | cons f t ih =>
      rw [List.foldl_cons, ih]
      simp [process_step, List.append_assoc]

/-- The failed-filter counter after the loop counts the filters whose
fetch raised. -/
theorem foldl_process_step_failed (tg : Bool) (fs : List FilterSpec)
    (init : ProcessResults) :
    (fs.foldl (process_step tg) init).failed_filters
      = init.failed_filters + fs.countP (fun f => f.fetch.isRaises) := by
  induction fs generalizing init with
  | nil => simp
  | cons f t ih =>
      rw [List.foldl_cons, ih, List.countP_cons, process_step_failed]
      by_cases hr : f.fetch.isRaises <;> simp [hr] <;> omega

/-- C7: if the fetch of filter i raises, `process_filters` still returns
a result (it does not raise), every filter receives an entry in order,
the entry of filter i records status error with the message, and the
failed-filter counter counts exactly the raising filters. -/
theorem process_filters_error_isolation (tg : Bool) (fs : List FilterSpec)
    (i : Nat) (f0 : FilterSpec) (msg : String)
    (hi : fs[i]? = some f0) (hraise : f0.fetch = FetchResult.raises msg) :
    process_filters tg fs = some (process_filters_core tg fs) ∧
    (process_filters_core tg fs).filter_results.length = fs.length ∧
    (process_filters_core tg fs).filter_results.map (fun r => r.filter_name)
      = fs.map (fun f => f.name) ∧
    (process_filters_core tg fs).filter_results[i]?
      = some { filter_name := f0.name, status := "error", error := some msg } ∧
    (process_filters_core tg fs).failed_filters
      = fs.countP (fun f => f.fetch.isRaises) := by
  have hres : (process_filters_core tg fs).filter_results
      = fs.map (fun f => (process_one_filter tg f).1) := by
    rw [process_filters_core, foldl_process_step_filter_results]
    rfl
  have hne : fs ≠ [] := by
    intro h
    subst h
    simp at hi
  refine ⟨?_, ?_, ?_, ?_, ?_⟩
  · cases fs with
    | nil => cases hne rfl
    | cons a t => rfl
  · rw [hres, List.length_map]
  · rw [hres, List.map_map]
    congr 1
    funext f
    exact process_one_filter_name tg f
  · rw [hres, List.getElem?_map, hi]
    simp [process_one_filter_raises tg f0 msg hraise]
  · rw [process_filters_core, foldl_process_step_failed]
    simp

/-- C7 witness: with filter A raising on fetch and filter B fetching one
listing, the run returns normally, the entry of A is status error with the
message, the entry of B shows one new listing with a sent notification, and
the failed counter is one. -/
theorem process_filters_error_isolation_witness :
    wfilters[0]? = some filterA ∧
    filterA.fetch = FetchResult.raises ("boom") ∧
    (process_filters true wfilters = some (process_filters_core true wfilters) ∧
      (process_filters_core true wfilters).filter_results.length = wfilters.length ∧
      (process_filters_core true wfilters).filter_results.map (fun r => r.filter_name)
        = wfilters.map (fun f => f.name) ∧
      (process_filters_core true wfilters).filter_results[0]?
        = some { filter_name := filterA.name, status := "error", error := some ("boom") } ∧
      (process_filters_core true wfilters).failed_filters
        = wfilters.countP (fun f => f.fetch.isRaises)) ∧
    (process_filters_core true wfilters).filter_results[1]?
      = some { filter_name := "B"
               new_listings_count := 1
               status := "success"
               notification_sent := some true } ∧
    (process_filters_core true wfilters).failed_filters = 1 :=
  ⟨rfl, rfl,
   process_filters_error_isolation true wfilters 0 filterA ("boom") rfl rfl,
   by decide, by decide⟩
